import Mathlib

/-!
Verification of the vkmark `VulkanState` bring-up core
(`src/vulkan_state.cpp`): instance creation, physical-device selection,
logical-device creation, command-pool creation, diagnostics logging, and
the `ManagedResource` ownership wrapper (the latter modelled from the
spec, since its definition lives in a header outside the sources).

Machine integers (Vulkan ids, queue counts, family indices) are modelled
as `Nat`; queue priorities as `ℚ` (the source stores the exact constant
`1.0f`, which is representable exactly).
-/

/-- One entry of `vk::PhysicalDevice::getQueueFamilyProperties`:
the queue count and the `vk::QueueFlagBits::eGraphics` capability bit. -/
structure QueueFamilyProperties where
  queueCount : Nat
  graphics : Bool
deriving DecidableEq, Repr

/-- The fields of `vk::PhysicalDeviceProperties` read by `log_info`. -/
structure PhysicalDeviceProperties where
  vendorID : Nat
  deviceID : Nat
  deviceName : String
  driverVersion : Nat
deriving DecidableEq, Repr

/-- A physical device: its properties and its queue family list. -/
structure PhysicalDevice where
  props : PhysicalDeviceProperties
  queueFamilies : List QueueFamilyProperties
deriving DecidableEq, Repr

/-- The windowing-system collaborator (`VulkanWSI`): required instance
extensions, the presentation-support predicate, and the presentation
queue family indices for a device. -/
structure VulkanWSI where
  vulkan_extensions : List String
  is_physical_device_supported : PhysicalDevice → Bool
  physical_device_queue_family_indices : PhysicalDevice → List Nat

/-- The test `queue_family.queueCount > 0 && (queue_family.queueFlags &
vk::QueueFlagBits::eGraphics)` from the inner loop of
`choose_physical_device` (vulkan_state.cpp:80-81). -/
def graphicsCapable (qf : QueueFamilyProperties) : Bool :=
  decide (qf.queueCount > 0) && qf.graphics

/-- The inner loop of `choose_physical_device` (vulkan_state.cpp:77-89):
scan the queue family list with a running index, returning the index of
the first graphics-capable family with a nonzero queue count. -/
def find_graphics_queue_family (queue_index : Nat) :
    List QueueFamilyProperties → Option Nat
  | [] => none
  | qf :: rest =>
    if graphicsCapable qf then some queue_index
    else find_graphics_queue_family (queue_index + 1) rest

/-- `VulkanState::choose_physical_device` (vulkan_state.cpp:67-97): in
enumeration order, skip devices the WSI reports unsupported; for the
rest, scan queue families in index order; stop at the first device whose
scan succeeds, recording the device and the family index.  `none` models
the `throw std::runtime_error("No suitable Vulkan physical devices
found")` on line 96. -/
def choose_physical_device (wsi : VulkanWSI) :
    List PhysicalDevice → Option (PhysicalDevice × Nat)
  | [] => none
  | pd :: rest =>
    if wsi.is_physical_device_supported pd then
      match find_graphics_queue_family 0 pd.queueFamilies with
      | some queue_index => some (pd, queue_index)
      | none => choose_physical_device wsi rest
    else choose_physical_device wsi rest

/-- A device is suitable when the WSI supports it and it has a queue
family with queue count > 0 and the graphics bit set. -/
def deviceSuitable (wsi : VulkanWSI) (pd : PhysicalDevice) : Bool :=
  wsi.is_physical_device_supported pd && pd.queueFamilies.any graphicsCapable

/-- `vk::InstanceCreateInfo` as configured by `create_instance`:
application name and enabled extension list. -/
structure InstanceCreateInfo where
  applicationName : String
  enabledExtensions : List String
deriving DecidableEq, Repr

/-- `VulkanState::create_instance` (vulkan_state.cpp:49-65): the WSI's
extensions followed by the fixed `VK_KHR_SURFACE_EXTENSION_NAME`
(`"VK_KHR_surface"`), with application name `"vkmark"`. -/
def create_instance_info (wsiExtensions : List String) : InstanceCreateInfo :=
  { applicationName := "vkmark"
    enabledExtensions := wsiExtensions ++ ["VK_KHR_surface"] }

/-- The queue-family-index merge in `create_device`
(vulkan_state.cpp:103-117): start from the WSI's presentation list and
append the graphics family index only when `std::find` fails on it. -/
def merged_queue_family_indices (wsiIndices : List Nat) (graphicsIndex : Nat) :
    List Nat :=
  if graphicsIndex ∈ wsiIndices then wsiIndices
  else wsiIndices ++ [graphicsIndex]

/-- One `vk::DeviceQueueCreateInfo` as built in `create_device`
(vulkan_state.cpp:119-127). -/
structure DeviceQueueCreateInfo where
  queueFamilyIndex : Nat
  queueCount : Nat
  priority : ℚ
deriving DecidableEq, Repr

/-- The loop of vulkan_state.cpp:120-127: one create info per index in
the merged list, each requesting one queue at priority 1.0. -/
def queue_create_infos_of (indices : List Nat) : List DeviceQueueCreateInfo :=
  indices.map (fun index => ⟨index, 1, 1⟩)

/-- `vk::DeviceCreateInfo` as configured by `create_device`
(vulkan_state.cpp:132-143): the queue create infos, one enabled
extension (swapchain), and anisotropic sampling enabled. -/
structure DeviceCreateInfo where
  queueCreateInfos : List DeviceQueueCreateInfo
  enabledExtensions : List String
  samplerAnisotropy : Bool
deriving DecidableEq, Repr

/-- The device create info built by `create_device` for a given WSI
presentation list and chosen graphics family index. -/
def device_create_info_of (wsiIndices : List Nat) (graphicsIndex : Nat) :
    DeviceCreateInfo :=
  { queueCreateInfos :=
      queue_create_infos_of (merged_queue_family_indices wsiIndices graphicsIndex)
    enabledExtensions := ["VK_KHR_swapchain"]
    samplerAnisotropy := true }

/-- `vk::Device::getQueue(family, index)` modelled by handle identity:
the pair of the family index and the index within the family. -/
def getQueue (familyIndex queueIndex : Nat) : Nat × Nat :=
  (familyIndex, queueIndex)

/-- `vk::CommandPoolCreateInfo` as configured by `create_command_pool`
(vulkan_state.cpp:152-161): bound to the graphics queue family, with the
`eResetCommandBuffer` flag. -/
structure CommandPoolCreateInfo where
  queueFamilyIndex : Nat
  resetCommandBuffer : Bool
deriving DecidableEq, Repr

/-- The command pool create info built by `create_command_pool` for the
chosen graphics family index. -/
def command_pool_create_info_of (graphicsIndex : Nat) : CommandPoolCreateInfo :=
  { queueFamilyIndex := graphicsIndex, resetCommandBuffer := true }

/-- The error raised on vulkan_state.cpp:96. -/
inductive VkError
  | NoSuitableDeviceError
deriving DecidableEq, Repr

/-- The owned native resources of a `VulkanState` (its `ManagedResource`
members). -/
inductive Res
  | instanceRes
  | deviceRes
  | commandPoolRes
deriving DecidableEq, Repr

/-- A creation or destruction of an owned native resource. -/
inductive Event
  | create (r : Res)
  | destroy (r : Res)
deriving DecidableEq, Repr

/-- The resources still allocated after a trace of events: each create
adds the resource, each destroy removes one occurrence. -/
def live (events : List Event) : List Res :=
  events.foldl
    (fun acc e =>
      match e with
      | Event.create r => acc ++ [r]
      | Event.destroy r => acc.erase r)
    []

/-- The context produced by a successful `VulkanState` construction:
each native handle is modelled by the create info that produced it,
plus the recorded graphics family index and queue handle. -/
structure VulkanStateModel where
  vk_instance : InstanceCreateInfo
  vk_physical_device : PhysicalDevice
  vk_graphics_queue_family_index : Nat
  vk_device : DeviceCreateInfo
  vk_graphics_queue : Nat × Nat
  vk_command_pool : CommandPoolCreateInfo
deriving DecidableEq, Repr

/-- The `VulkanState` constructor (vulkan_state.cpp:31-37):
`create_instance`, `choose_physical_device`, `create_device`,
`create_command_pool`, in that order, with the resource events each
stage performs.  On the no-suitable-device path the constructor throws
(vulkan_state.cpp:96) after the instance member was filled; the
destruction of that member while the exception unwinds is modelled from
the spec (`ManagedResource` is defined in a header outside the sources):
a live wrapper destroys its resource exactly once as construction
fails. -/
def construct (wsi : VulkanWSI) (devices : List PhysicalDevice) :
    Except VkError VulkanStateModel × List Event :=
  let inst := create_instance_info wsi.vulkan_extensions
  match choose_physical_device wsi devices with
  | none =>
      (Except.error VkError.NoSuitableDeviceError,
       [Event.create Res.instanceRes, Event.destroy Res.instanceRes])
  | some (pd, graphicsIndex) =>
      let wsiIndices := wsi.physical_device_queue_family_indices pd
      (Except.ok
        { vk_instance := inst
          vk_physical_device := pd
          vk_graphics_queue_family_index := graphicsIndex
          vk_device := device_create_info_of wsiIndices graphicsIndex
          vk_graphics_queue := getQueue graphicsIndex 0
          vk_command_pool := command_pool_create_info_of graphicsIndex },
       [Event.create Res.instanceRes, Event.create Res.deviceRes,
        Event.create Res.commandPoolRes])

/-- Modelled from the spec: the destruction of a fully constructed
`VulkanState`.  The `ManagedResource` members are declared in
`vulkan_state.h`, outside the sources; per the spec, destruction order
is strictly reverse of creation order — CommandPool before Device before
Instance — the pool destructor calling `device().destroyCommandPool`
against the still-live device (vulkan_state.cpp:160). -/
def teardown_events : List Event :=
  [Event.destroy Res.commandPoolRes, Event.destroy Res.deviceRes,
   Event.destroy Res.instanceRes]

/-- The full lifecycle trace of a context: construction events followed
by teardown of the owned members. -/
def lifecycle_events (wsi : VulkanWSI) (devices : List PhysicalDevice) :
    List Event :=
  (construct wsi devices).2 ++ teardown_events

/-- Modelled from the spec: the lifecycle operations that can hit a
`ManagedResource` wrapper (defined in a header outside the sources):
assignment of a replacement resource, being moved from, explicit reset,
and destruction at scope exit. -/
inductive MRAction
  | assign (r : Nat)
  | moveOut
  | reset
  | scopeExit
deriving DecidableEq, Repr

/-- Modelled from the spec: one lifecycle step of a wrapper whose state
is the held resource id (or `none` when empty), returning the new state
and the ids whose destructor callback fired in the step.  Reassignment,
reset and scope exit destroy the held resource if any; being moved from
empties the wrapper without firing the destructor. -/
def mrStep : Option Nat → MRAction → Option Nat × List Nat
  | some r, MRAction.assign s => (some s, [r])
  | none, MRAction.assign s => (some s, [])
  | some _, MRAction.moveOut => (none, [])
  | none, MRAction.moveOut => (none, [])
  | some r, MRAction.reset => (none, [r])
  | none, MRAction.reset => (none, [])
  | some r, MRAction.scopeExit => (none, [r])
  | none, MRAction.scopeExit => (none, [])

/-- Run a list of lifecycle actions from a wrapper state, collecting
every destructor invocation in order. -/
def mrRun (st : Option Nat) : List MRAction → Option Nat × List Nat
  | [] => (st, [])
  | a :: rest =>
      let step := mrStep st a
      let tail := mrRun step.1 rest
      (tail.1, step.2 ++ tail.2)

/-- The resource ids assigned into the wrapper by an action list. -/
def mrAssigned (as : List MRAction) : List Nat :=
  as.filterMap
    (fun a => match a with
      | MRAction.assign s => some s
      | _ => none)

/-- How the tenure of the currently held resource ends. -/
inductive TenureFate
  | stillHeld
  | destroyed
  | movedFrom
deriving DecidableEq, Repr

/-- The fate of the held resource is decided by the first action: being
moved from suppresses the destructor; reassignment, reset and scope exit
each destroy; an empty action list leaves the resource held. -/
def tenureFate : List MRAction → TenureFate
  | [] => TenureFate.stillHeld
  | MRAction.moveOut :: _ => TenureFate.movedFrom
  | _ :: _ => TenureFate.destroyed

/-- The character printed by `%X` for one hexadecimal digit value:
`0`-`9` then uppercase `A`-`F`. -/
def hexDigitChar (n : Nat) : Char :=
  if n < 10 then Char.ofNat (48 + n) else Char.ofNat (55 + n)

/-- Big-endian uppercase hexadecimal digit characters of `n` (empty for
zero), as `%X` lays them out. -/
def hexChars (n : Nat) : List Char :=
  if h : n = 0 then []
  else hexChars (n / 16) ++ [hexDigitChar (n % 16)]
termination_by n
decreasing_by exact Nat.div_lt_self (Nat.pos_of_ne_zero h) (by norm_num)

/-- The text `%X` prints for an unsigned value: its uppercase
hexadecimal digits, with zero printed as `"0"`. -/
def hexUpper (n : Nat) : String :=
  if n = 0 then "0" else String.mk (hexChars n)

/-- The character printed by `%u` for one decimal digit value. -/
def decDigitChar (n : Nat) : Char :=
  Char.ofNat (48 + n)

/-- Big-endian decimal digit characters of `n` (empty for zero), as `%u`
lays them out. -/
def decChars (n : Nat) : List Char :=
  if h : n = 0 then []
  else decChars (n / 10) ++ [decDigitChar (n % 10)]
termination_by n
decreasing_by exact Nat.div_lt_self (Nat.pos_of_ne_zero h) (by norm_num)

/-- The text `%u` prints for an unsigned value: its decimal digits, with
zero printed as `"0"`. -/
def decString (n : Nat) : String :=
  if n = 0 then "0" else String.mk (decChars n)

/-- The numeric value of one uppercase hexadecimal digit character. -/
def hexDigitVal (c : Char) : Nat :=
  if c.toNat ≥ 65 then c.toNat - 55 else c.toNat - 48

/-- The value denoted by a big-endian uppercase hexadecimal digit
string. -/
def hexValue (cs : List Char) : Nat :=
  cs.foldl (fun acc c => 16 * acc + hexDigitVal c) 0

/-- The value denoted by a big-endian decimal digit string. -/
def decValue (cs : List Char) : Nat :=
  cs.foldl (fun acc c => 10 * acc + (c.toNat - 48)) 0

/-- Whether a character is a digit `%X` can produce: `0`-`9` or
uppercase `A`-`F`. -/
def isUpperHexDigit (c : Char) : Bool :=
  (decide (48 ≤ c.toNat) && decide (c.toNat ≤ 57)) ||
  (decide (65 ≤ c.toNat) && decide (c.toNat ≤ 70))

/-- Whether a character is a decimal digit. -/
def isDecDigit (c : Char) : Bool :=
  decide (48 ≤ c.toNat) && decide (c.toNat ≤ 57)

/-- `VulkanState::log_info` (vulkan_state.cpp:39-47): the four lines
written through `Log::info` (each format string ends in a newline, so
each call emits one line). -/
def log_info_lines (props : PhysicalDeviceProperties) : List String :=
  ["    Vendor ID:      0x" ++ hexUpper props.vendorID,
   "    Device ID:      0x" ++ hexUpper props.deviceID,
   "    Device Name:    " ++ props.deviceName,
   "    Driver Version: " ++ decString props.driverVersion]

/-- `log_info` as a state transformer: it reads the chosen physical
device's properties and emits the lines; the state component of the
result is the input state, untouched. -/
def log_info_model (s : VulkanStateModel) :
    VulkanStateModel × List String :=
  (s, log_info_lines s.vk_physical_device.props)

/-- A sample device the sample WSI rejects (and whose only queue family
is not graphics-capable). -/
def sampleDeviceA : PhysicalDevice :=
  { props := { vendorID := 4098, deviceID := 1, deviceName := "gpu-a",
               driverVersion := 7 }
    queueFamilies := [{ queueCount := 1, graphics := false }] }

/-- A sample device the sample WSI accepts, whose lowest
graphics-capable queue family (nonzero count and graphics bit) sits at
index 2. -/
def sampleDeviceB : PhysicalDevice :=
  { props := { vendorID := 4318, deviceID := 2, deviceName := "gpu-b",
               driverVersion := 9 }
    queueFamilies := [{ queueCount := 0, graphics := true },
                      { queueCount := 1, graphics := false },
                      { queueCount := 2, graphics := true }] }

/-- A sample WSI collaborator that rejects `sampleDeviceA` and requires
presentation queue family 1. -/
def sampleWSI : VulkanWSI :=
  { vulkan_extensions := ["VK_KHR_xcb_surface"]
    is_physical_device_supported := fun pd => decide (pd.props.deviceID ≠ 1)
    physical_device_queue_family_indices := fun _ => [1] }

/-- A sample WSI collaborator that rejects every device. -/
def sampleWSINone : VulkanWSI :=
  { vulkan_extensions := []
    is_physical_device_supported := fun _ => false
    physical_device_queue_family_indices := fun _ => [] }

/-- A sample enumeration: an unsupported device followed by a supported
one. -/
def sampleDevices : List PhysicalDevice := [sampleDeviceA, sampleDeviceB]

/-- A sample fully constructed context. -/
def sampleState : VulkanStateModel :=
  { vk_instance := create_instance_info ["VK_KHR_xcb_surface"]
    vk_physical_device := sampleDeviceB
    vk_graphics_queue_family_index := 2
    vk_device := device_create_info_of [1] 2
    vk_graphics_queue := getQueue 2 0
    vk_command_pool := command_pool_create_info_of 2 }

/-- `pd` is the first device in enumeration order satisfying the
conjunction of WSI support and possession of a graphics-capable queue
family, and `i` is the lowest graphics-capable family index on it. -/
def IsFirstChoice (wsi : VulkanWSI) (devices : List PhysicalDevice)
    (pd : PhysicalDevice) (i : Nat) : Prop :=
  (∃ k : Nat, devices[k]? = some pd ∧
      ∀ j : Nat, j < k → ∀ pdj, devices[j]? = some pdj →
        deviceSuitable wsi pdj = false) ∧
  deviceSuitable wsi pd = true ∧
  (∃ qf, pd.queueFamilies[i]? = some qf ∧ graphicsCapable qf = true) ∧
  ∀ j : Nat, j < i → ∀ qfj, pd.queueFamilies[j]? = some qfj →
    graphicsCapable qfj = false

theorem find_graphics_isSome (qfs : List QueueFamilyProperties) (n : Nat) :
    (find_graphics_queue_family n qfs).isSome = qfs.any graphicsCapable := by
  induction qfs generalizing n with
  | nil => rfl
  | cons qf rest ih =>
      by_cases h : graphicsCapable qf
      · simp [find_graphics_queue_family, h]
      · simp [find_graphics_queue_family, h, ih]

theorem find_graphics_spec (qfs : List QueueFamilyProperties) (n i : Nat)
    (h : find_graphics_queue_family n qfs = some i) :
    ∃ m : Nat, i = n + m ∧
      (∃ qf, qfs[m]? = some qf ∧ graphicsCapable qf = true) ∧
      ∀ j : Nat, j < m → ∀ qfj, qfs[j]? = some qfj →
        graphicsCapable qfj = false := by
  induction qfs generalizing n with
  | nil => simp [find_graphics_queue_family] at h
  | cons qf rest ih =>
      by_cases hqf : graphicsCapable qf
      · have hn : n = i := by
          simpa [find_graphics_queue_family, hqf] using h
        refine ⟨0, by omega, ⟨qf, by simp, hqf⟩, ?_⟩
        intro j hj
        omega
      · have h2 : find_graphics_queue_family (n + 1) rest = some i := by
          simpa [find_graphics_queue_family, hqf] using h
        obtain ⟨m, hm, ⟨qfm, hqfm, hcap⟩, hearlier⟩ := ih (n + 1) h2
        refine ⟨m + 1, by omega, ⟨qfm, by simpa using hqfm, hcap⟩, ?_⟩
        intro j hj qfj hget
        match j with
        | 0 =>
            have : qfj = qf := by simpa using hget.symm
            subst this
            simpa using hqf
        | j + 1 =>
            exact hearlier j (by omega) qfj (by simpa using hget)

theorem choose_physical_device_eq_none (wsi : VulkanWSI)
    (devices : List PhysicalDevice) :
    choose_physical_device wsi devices = none ↔
      ∀ pd ∈ devices, deviceSuitable wsi pd = false := by
  induction devices with
  | nil => simp [choose_physical_device]
  | cons pd rest ih =>
      have hany := find_graphics_isSome pd.queueFamilies 0
      by_cases hs : wsi.is_physical_device_supported pd
      · cases hfind : find_graphics_queue_family 0 pd.queueFamilies with
        | some qi =>
            rw [hfind] at hany
            constructor
            · intro h
              simp [choose_physical_device, hs, hfind] at h
            · intro h
              have := h pd (by simp)
              rw [deviceSuitable, hs, ← hany] at this
              simp at this
        | none =>
            rw [hfind] at hany
            have hsuit : deviceSuitable wsi pd = false := by
              rw [deviceSuitable, hs, ← hany]
              simp
            simp [choose_physical_device, hs, hfind, ih, hsuit]
      · have hsuit : deviceSuitable wsi pd = false := by
          rw [deviceSuitable]
          simp [hs]
        simp [choose_physical_device, hs, ih, hsuit]

/-- C1: for every enumeration of physical devices and every collaborator
support predicate, the device selected by `choose_physical_device` is
the first device in enumeration order for which the support predicate
holds and which has a queue family with queue count > 0 and the graphics
bit set, and the recorded graphics queue family index is the lowest such
index on that device. -/
theorem choose_physical_device_first (wsi : VulkanWSI)
    (devices : List PhysicalDevice) (pd : PhysicalDevice) (i : Nat)
    (h : choose_physical_device wsi devices = some (pd, i)) :
    IsFirstChoice wsi devices pd i := by
  induction devices with
  | nil => simp [choose_physical_device] at h
  | cons pd0 rest ih =>
      have hany := find_graphics_isSome pd0.queueFamilies 0
      by_cases hs : wsi.is_physical_device_supported pd0
      · cases hfind : find_graphics_queue_family 0 pd0.queueFamilies with
        | some qi =>
            rw [hfind] at hany
            have hpair : pd0 = pd ∧ qi = i := by
              have := h
              simp [choose_physical_device, hs, hfind] at this
              exact this
            obtain ⟨rfl, rfl⟩ := hpair
            obtain ⟨m, hm, hqf, hearlier⟩ :=
              find_graphics_spec pd0.queueFamilies 0 qi hfind
            have hmi : m = qi := by omega
            subst hmi
            refine ⟨⟨0, by simp, ?_⟩, ?_, hqf, hearlier⟩
            · intro j hj
              omega
            · rw [deviceSuitable, hs, ← hany]
              simp
        | none =>
            rw [hfind] at hany
            have h2 : choose_physical_device wsi rest = some (pd, i) := by
              simpa [choose_physical_device, hs, hfind] using h
            obtain ⟨⟨k, hk, hkearlier⟩, hsuit, hqf, hqfearlier⟩ := ih h2
            refine ⟨⟨k + 1, by simpa using hk, ?_⟩, hsuit, hqf, hqfearlier⟩
            intro j hj pdj hget
            match j with
            | 0 =>
                have : pdj = pd0 := by simpa using hget.symm
                subst this
                rw [deviceSuitable, hs, ← hany]
                simp
            | j + 1 =>
                exact hkearlier j (by omega) pdj (by simpa using hget)
      · have h2 : choose_physical_device wsi rest = some (pd, i) := by
          simpa [choose_physical_device, hs] using h
        obtain ⟨⟨k, hk, hkearlier⟩, hsuit, hqf, hqfearlier⟩ := ih h2
        refine ⟨⟨k + 1, by simpa using hk, ?_⟩, hsuit, hqf, hqfearlier⟩
        intro j hj pdj hget
        match j with
        | 0 =>
            have : pdj = pd0 := by simpa using hget.symm
            subst this
            rw [deviceSuitable]
            simp [hs]
        | j + 1 =>
            exact hkearlier j (by omega) pdj (by simpa using hget)

/-- The selection theorem applied to the sample enumeration: the
unsupported `sampleDeviceA` is skipped, `sampleDeviceB` is chosen, and
its lowest graphics-capable family index is 2. -/
theorem choose_physical_device_first_witness :
    choose_physical_device sampleWSI sampleDevices = some (sampleDeviceB, 2) ∧
    IsFirstChoice sampleWSI sampleDevices sampleDeviceB 2 :=
  ⟨by decide,
   choose_physical_device_first sampleWSI sampleDevices sampleDeviceB 2
     (by decide)⟩

/-- C3: if no enumerated physical device satisfies the conjunction of
the collaborator's support predicate and possession of a
graphics-capable queue family with nonzero queue count, construction
fails with `NoSuitableDeviceError`, no context is produced, and no
Instance, Device, or CommandPool remains allocated. -/
theorem construct_no_suitable_device (wsi : VulkanWSI)
    (devices : List PhysicalDevice)
    (h : ∀ pd ∈ devices, deviceSuitable wsi pd = false) :
    (construct wsi devices).1 = Except.error VkError.NoSuitableDeviceError ∧
    live (construct wsi devices).2 = [] := by
  have hc : choose_physical_device wsi devices = none :=
    (choose_physical_device_eq_none wsi devices).mpr h
  rw [construct, hc]
  exact ⟨rfl, rfl⟩

/-- The failure theorem applied to a collaborator that rejects every
sample device: construction errors out and the event trace leaves
nothing allocated. -/
theorem construct_no_suitable_device_witness :
    (∀ pd ∈ sampleDevices, deviceSuitable sampleWSINone pd = false) ∧
    (construct sampleWSINone sampleDevices).1 =
      Except.error VkError.NoSuitableDeviceError ∧
    live (construct sampleWSINone sampleDevices).2 = [] :=
  ⟨by decide, construct_no_suitable_device sampleWSINone sampleDevices
    (by decide)⟩

/-- C5: for every collaborator-supplied presentation queue family list —
including the empty list and any list not containing the graphics family
index — the chosen graphics queue family index is present in the final
queue family list used to create the logical device. -/
theorem graphics_family_in_merged (wsiIndices : List Nat)
    (graphicsIndex : Nat) :
    graphicsIndex ∈ merged_queue_family_indices wsiIndices graphicsIndex := by
  rw [merged_queue_family_indices]
  split
  · assumption
  · simp

theorem merged_nodup_helper (wsiIndices : List Nat) (graphicsIndex : Nat)
    (h : wsiIndices.Nodup) :
    (merged_queue_family_indices wsiIndices graphicsIndex).Nodup := by
  rw [merged_queue_family_indices]
  split
  · exact h
  · next hmem =>
      simp [List.nodup_append, h, hmem]

/-- C2 as stated is false: a collaborator list that itself contains a
duplicate (here `[1, 1]`, graphics family 2) reaches device creation
with a duplicated queue family index list. -/
theorem merged_queue_family_indices_duplicate_counterexample :
    ¬ (merged_queue_family_indices [1, 1] 2).Nodup := by decide

/-- C2 (amended): for every duplicate-free collaborator presentation
list and every chosen graphics family index, the queue family index
list passed to logical device creation contains no duplicates.  (The
source on vulkan_state.cpp:112-117 only guards against duplicating the
graphics index; it never deduplicates the collaborator's own list.) -/
theorem merged_queue_family_indices_nodup (wsiIndices : List Nat)
    (graphicsIndex : Nat) (h : wsiIndices.Nodup) :
    (merged_queue_family_indices wsiIndices graphicsIndex).Nodup :=
  merged_nodup_helper wsiIndices graphicsIndex h

/-- The deduplication theorem applied to a concrete overlap: list
`[1, 3]` with graphics family 3 already present stays duplicate-free. -/
theorem merged_queue_family_indices_nodup_witness :
    List.Nodup [1, 3] ∧ (merged_queue_family_indices [1, 3] 3).Nodup :=
  ⟨by decide, merged_queue_family_indices_nodup [1, 3] 3 (by decide)⟩

/-- C10: the queue-create-info list passed to logical device creation
preserves the collaborator's list order element for element, with the
graphics family index appended as the final element exactly when it is
absent from the collaborator's list; in particular, when the
collaborator's list is nonempty, its first required family is the first
queue create info. -/
theorem queue_create_infos_order (wsiIndices : List Nat)
    (graphicsIndex : Nat) :
    (queue_create_infos_of
        (merged_queue_family_indices wsiIndices graphicsIndex)).take
          wsiIndices.length
      = queue_create_infos_of wsiIndices ∧
    (queue_create_infos_of
        (merged_queue_family_indices wsiIndices graphicsIndex)).drop
          wsiIndices.length
      = (if graphicsIndex ∈ wsiIndices then []
         else [⟨graphicsIndex, 1, 1⟩]) ∧
    ∀ x, wsiIndices.head? = some x →
      (queue_create_infos_of
          (merged_queue_family_indices wsiIndices graphicsIndex)).head?
        = some ⟨x, 1, 1⟩ := by
  have hlen : (queue_create_infos_of wsiIndices).length =
      wsiIndices.length := by
    simp [queue_create_infos_of]
  have happ :
      queue_create_infos_of (wsiIndices ++ [graphicsIndex]) =
        queue_create_infos_of wsiIndices ++ [⟨graphicsIndex, 1, 1⟩] := by
    simp [queue_create_infos_of]
  rw [merged_queue_family_indices]
  split
  · refine ⟨?_, ?_, ?_⟩
    · rw [← hlen, List.take_length]
    · rw [← hlen, List.drop_length]
    · intro x hx
      cases wsiIndices with
      | nil => simp at hx
      | cons a t =>
          have ha : a = x := by simpa using hx
          subst ha
          rfl
  · refine ⟨?_, ?_, ?_⟩
    · rw [happ, ← hlen, List.take_left]
    · rw [happ, ← hlen, List.drop_left]
    · intro x hx
      cases wsiIndices with
      | nil => simp at hx
      | cons a t =>
          have ha : a = x := by simpa using hx
          subst ha
          rfl

/-- The ordering theorem applied to collaborator list `[1]` and graphics
family 2: the first create info is the collaborator's family 1. -/
theorem queue_create_infos_order_witness :
    ([1] : List Nat).head? = some 1 ∧
    (queue_create_infos_of (merged_queue_family_indices [1] 2)).head?
      = some ⟨1, 1, 1⟩ :=
  ⟨rfl, (queue_create_infos_order [1] 2).2.2 1 rfl⟩

/-- C7: for every collaborator-supplied instance extension list,
instance creation enables exactly the collaborator's extensions (as a
prefix, in order) plus the fixed `VK_KHR_surface` extension appended at
the end, performs no deduplication (every name keeps its multiplicity,
with the surface extension gaining one occurrence), and uses the fixed
application identifier `"vkmark"`. -/
theorem create_instance_info_spec (wsiExtensions : List String) :
    (create_instance_info wsiExtensions).applicationName = "vkmark" ∧
    (create_instance_info wsiExtensions).enabledExtensions.take
        wsiExtensions.length = wsiExtensions ∧
    (create_instance_info wsiExtensions).enabledExtensions.drop
        wsiExtensions.length = ["VK_KHR_surface"] ∧
    ∀ s : String,
      (create_instance_info wsiExtensions).enabledExtensions.count s
        = wsiExtensions.count s +
            (if s = "VK_KHR_surface" then 1 else 0) := by
  refine ⟨rfl, ?_, ?_, ?_⟩
  · rw [create_instance_info]
    exact List.take_left wsiExtensions ["VK_KHR_surface"]
  · rw [create_instance_info]
    exact List.drop_left wsiExtensions ["VK_KHR_surface"]
  · intro s
    rw [create_instance_info]
    simp only [List.count_append]
    congr 1
    by_cases hs : s = "VK_KHR_surface"
    · subst hs
      simp [List.count_singleton]
    · rw [if_neg hs]
      simp [List.count_cons, List.count_nil]
      intro hcontra
      exact absurd hcontra.symm hs

/-- C8 as stated is false: with collaborator list `[1, 1]` and graphics
family 2 the final list is `[1, 1, 2]`, so the distinct family index 1
gets two queue create infos — two queues are requested for it, not
exactly one. -/
theorem device_queue_requests_counterexample :
    (queue_create_infos_of (merged_queue_family_indices [1, 1] 2)).countP
        (fun info => info.queueFamilyIndex == 1) = 2 ∧
    ¬ (queue_create_infos_of (merged_queue_family_indices [1, 1] 2)).countP
        (fun info => info.queueFamilyIndex == 1) = 1 := by
  have h2 : (queue_create_infos_of (merged_queue_family_indices [1, 1] 2)).countP
      (fun info => info.queueFamilyIndex == 1) = 2 := rfl
  refine ⟨h2, ?_⟩
  intro hcontra
  rw [hcontra] at h2
  exact absurd h2 (by decide)

/-- C8 (amended): provided the collaborator's presentation list is
duplicate-free (as the spec trusts it to be), each distinct queue family
index of the final list gets exactly one queue create info, every create
info requests exactly one queue with priority 1.0, and the graphics
queue handle of any successfully constructed context is fetched with
(graphics family index, queue index 0). -/
theorem device_queue_requests (wsiIndices : List Nat) (graphicsIndex : Nat)
    (h : wsiIndices.Nodup) :
    (∀ info ∈ queue_create_infos_of
        (merged_queue_family_indices wsiIndices graphicsIndex),
      info.queueCount = 1 ∧ info.priority = 1) ∧
    (∀ i ∈ merged_queue_family_indices wsiIndices graphicsIndex,
      (queue_create_infos_of
          (merged_queue_family_indices wsiIndices graphicsIndex)).countP
        (fun info => info.queueFamilyIndex == i) = 1) ∧
    ∀ (wsi : VulkanWSI) (devices : List PhysicalDevice)
        (st : VulkanStateModel),
      (construct wsi devices).1 = Except.ok st →
      st.vk_graphics_queue = getQueue st.vk_graphics_queue_family_index 0 := by
  refine ⟨?_, ?_, ?_⟩
  · intro info hinfo
    rw [queue_create_infos_of] at hinfo
    obtain ⟨index, _, rfl⟩ := List.mem_map.mp hinfo
    exact ⟨rfl, rfl⟩
  · intro i hi
    have hnd := merged_nodup_helper wsiIndices graphicsIndex h
    rw [queue_create_infos_of, List.countP_map]
    have hcount :
        (merged_queue_family_indices wsiIndices graphicsIndex).count i = 1 :=
      List.count_eq_one_of_mem hnd hi
    calc ((merged_queue_family_indices wsiIndices graphicsIndex).countP
            ((fun info => info.queueFamilyIndex == i) ∘
              (fun index => (⟨index, 1, 1⟩ : DeviceQueueCreateInfo))))
        = (merged_queue_family_indices wsiIndices graphicsIndex).count i := by
          rfl
      _ = 1 := hcount
  · intro wsi devices st hc
    cases hchoose : choose_physical_device wsi devices with
    | none =>
        simp [construct, hchoose] at hc
    | some sel =>
        obtain ⟨pd, g⟩ := sel
        simp only [construct, hchoose] at hc
        have hst := Except.ok.inj hc
        subst hst
        rfl

/-- The queue-request theorem applied to collaborator list `[1]` and
graphics family 2: each of the two distinct families gets exactly one
create info requesting one queue. -/
theorem device_queue_requests_witness :
    List.Nodup [1] ∧
    ∀ info ∈ queue_create_infos_of (merged_queue_family_indices [1] 2),
      info.queueCount = 1 ∧ info.priority = 1 :=
  ⟨by decide, (device_queue_requests [1] 2 (by decide)).1⟩

/-- C6: teardown of a fully constructed context destroys resources in
strictly reverse creation order — CommandPool before Device before
Instance — the Device is still live when the CommandPool's destroy call
is issued against it, the Instance is still live when the Device is
destroyed, and nothing remains allocated afterwards. -/
theorem teardown_reverse_order (wsi : VulkanWSI)
    (devices : List PhysicalDevice)
    (h : (choose_physical_device wsi devices).isSome = true) :
    (lifecycle_events wsi devices).indexOf (Event.create Res.instanceRes)
        < (lifecycle_events wsi devices).indexOf
            (Event.create Res.deviceRes) ∧
    (lifecycle_events wsi devices).indexOf (Event.create Res.deviceRes)
        < (lifecycle_events wsi devices).indexOf
            (Event.create Res.commandPoolRes) ∧
    (lifecycle_events wsi devices).indexOf
        (Event.destroy Res.commandPoolRes)
      < (lifecycle_events wsi devices).indexOf
          (Event.destroy Res.deviceRes) ∧
    (lifecycle_events wsi devices).indexOf (Event.destroy Res.deviceRes)
      < (lifecycle_events wsi devices).indexOf
          (Event.destroy Res.instanceRes) ∧
    Res.deviceRes ∈ live ((lifecycle_events wsi devices).take
        ((lifecycle_events wsi devices).indexOf
          (Event.destroy Res.commandPoolRes))) ∧
    Res.instanceRes ∈ live ((lifecycle_events wsi devices).take
        ((lifecycle_events wsi devices).indexOf
          (Event.destroy Res.deviceRes))) ∧
    live (lifecycle_events wsi devices) = [] := by
  obtain ⟨sel, hsel⟩ := Option.isSome_iff_exists.mp h
  obtain ⟨pd, g⟩ := sel
  have htr : lifecycle_events wsi devices =
      [Event.create Res.instanceRes, Event.create Res.deviceRes,
       Event.create Res.commandPoolRes, Event.destroy Res.commandPoolRes,
       Event.destroy Res.deviceRes, Event.destroy Res.instanceRes] := by
    simp [lifecycle_events, construct, hsel, teardown_events]
  rw [htr]
  decide

/-- The teardown theorem applied to the sample context: construction
succeeds and the full lifecycle trace ends with nothing allocated. -/
theorem teardown_reverse_order_witness :
    (choose_physical_device sampleWSI sampleDevices).isSome = true ∧
    live (lifecycle_events sampleWSI sampleDevices) = [] :=
  ⟨by decide,
   (teardown_reverse_order sampleWSI sampleDevices (by decide)).2.2.2.2.2.2⟩

theorem mrRun_count_zero (r : Nat) (st : Option Nat) (as : List MRAction)
    (hassign : r ∉ mrAssigned as) (hst : st ≠ some r) :
    ((mrRun st as).2).count r = 0 := by
  induction as generalizing st with
  | nil => simp [mrRun]
  | cons a rest ih =>
      cases a with
      | assign s =>
          have hsr : ¬ s = r := by
            intro hcontra
            exact hassign (by simp [mrAssigned, hcontra])
          have hrest : r ∉ mrAssigned rest := by
            intro hmem
            refine hassign ?_
            simp [mrAssigned] at hmem ⊢
            exact Or.inr hmem
          have hnext := ih (some s) hrest (by simpa using hsr)
          cases st with
          | none =>
              simpa [mrRun, mrStep, List.count_append] using hnext
          | some t =>
              have htr : ¬ t = r := by
                intro hcontra
                exact hst (by rw [hcontra])
              simp [mrRun, mrStep, List.count_append, List.count_cons, htr,
                hnext]
      | moveOut =>
          have hrest : r ∉ mrAssigned rest := by
            simpa [mrAssigned] using hassign
          have hnext := ih none hrest (by simp)
          cases st with
          | none => simpa [mrRun, mrStep, List.count_append] using hnext
          | some t => simpa [mrRun, mrStep, List.count_append] using hnext
      | reset =>
          have hrest : r ∉ mrAssigned rest := by
            simpa [mrAssigned] using hassign
          have hnext := ih none hrest (by simp)
          cases st with
          | none => simpa [mrRun, mrStep, List.count_append] using hnext
          | some t =>
              have htr : ¬ t = r := by
                intro hcontra
                exact hst (by rw [hcontra])
              simp [mrRun, mrStep, List.count_append, List.count_cons, htr,
                hnext]
      | scopeExit =>
          have hrest : r ∉ mrAssigned rest := by
            simpa [mrAssigned] using hassign
          have hnext := ih none hrest (by simp)
          cases st with
          | none => simpa [mrRun, mrStep, List.count_append] using hnext
          | some t =>
              have htr : ¬ t = r := by
                intro hcontra
                exact hst (by rw [hcontra])
              simp [mrRun, mrStep, List.count_append, List.count_cons, htr,
                hnext]

/-- C4 (modelled from the spec: `ManagedResource` lives in a header
outside the sources): over any action sequence hitting a wrapper that
holds resource `r` (with `r` never re-assigned into it), the destructor
fires on `r` exactly once — at the earliest of reassignment, explicit
reset, or scope exit — and zero times when the wrapper is moved from
first or still holds `r` at the end. -/
theorem managed_resource_exactly_once (r : Nat) (as : List MRAction)
    (h : r ∉ mrAssigned as) :
    ((mrRun (some r) as).2).count r
      = (if tenureFate as = TenureFate.destroyed then 1 else 0) := by
  cases as with
  | nil => simp [mrRun, tenureFate]
  | cons a rest =>
      cases a with
      | assign s =>
          have hsr : ¬ s = r := by
            intro hcontra
            exact h (by simp [mrAssigned, hcontra])
          have hrest : r ∉ mrAssigned rest := by
            intro hmem
            refine h ?_
            simp [mrAssigned] at hmem ⊢
            exact Or.inr hmem
          have hzero := mrRun_count_zero r (some s) rest hrest
            (by simpa using hsr)
          simp [mrRun, mrStep, tenureFate, List.count_append,
            List.count_cons, hzero]
      | moveOut =>
          have hrest : r ∉ mrAssigned rest := by
            simpa [mrAssigned] using h
          have hzero := mrRun_count_zero r none rest hrest (by simp)
          simp [mrRun, mrStep, tenureFate, List.count_append, hzero]
      | reset =>
          have hrest : r ∉ mrAssigned rest := by
            simpa [mrAssigned] using h
          have hzero := mrRun_count_zero r none rest hrest (by simp)
          simp [mrRun, mrStep, tenureFate, List.count_append,
            List.count_cons, hzero]
      | scopeExit =>
          have hrest : r ∉ mrAssigned rest := by
            simpa [mrAssigned] using h
          have hzero := mrRun_count_zero r none rest hrest (by simp)
          simp [mrRun, mrStep, tenureFate, List.count_append,
            List.count_cons, hzero]

/-- The exactly-once theorem applied to a wrapper holding resource 0
that is reset and later leaves scope: one destructor invocation; and to
one that is moved from first: zero invocations. -/
theorem managed_resource_exactly_once_witness :
    ((0 : Nat) ∉ mrAssigned [MRAction.reset, MRAction.scopeExit] ∧
      ((mrRun (some 0) [MRAction.reset, MRAction.scopeExit]).2).count 0 = 1) ∧
    ((0 : Nat) ∉ mrAssigned [MRAction.moveOut, MRAction.scopeExit] ∧
      ((mrRun (some 0) [MRAction.moveOut, MRAction.scopeExit]).2).count 0
        = 0) :=
  ⟨⟨by decide,
    Eq.trans (managed_resource_exactly_once 0
      [MRAction.reset, MRAction.scopeExit] (by decide)) (by decide)⟩,
   ⟨by decide,
    Eq.trans (managed_resource_exactly_once 0
      [MRAction.moveOut, MRAction.scopeExit] (by decide)) (by decide)⟩⟩

theorem hexValue_append_digit (cs : List Char) (c : Char) :
    hexValue (cs ++ [c]) = 16 * hexValue cs + hexDigitVal c := by
  simp [hexValue, List.foldl_append]

theorem decValue_append_digit (cs : List Char) (c : Char) :
    decValue (cs ++ [c]) = 10 * decValue cs + (c.toNat - 48) := by
  simp [decValue, List.foldl_append]

theorem hexDigitVal_hexDigitChar :
    ∀ m : Nat, m < 16 → hexDigitVal (hexDigitChar m) = m := by decide

theorem isUpperHexDigit_hexDigitChar :
    ∀ m : Nat, m < 16 → isUpperHexDigit (hexDigitChar m) = true := by decide

theorem decDigitChar_val :
    ∀ m : Nat, m < 10 → (decDigitChar m).toNat - 48 = m := by decide

theorem isDecDigit_decDigitChar :
    ∀ m : Nat, m < 10 → isDecDigit (decDigitChar m) = true := by decide

theorem hexValue_hexChars (n : Nat) : hexValue (hexChars n) = n := by
  induction n using Nat.strong_induction_on with
  | _ n ih =>
      by_cases h : n = 0
      · subst h
        rw [hexChars]
        simp [hexValue]
      · rw [hexChars, dif_neg h, hexValue_append_digit,
          ih (n / 16) (Nat.div_lt_self (Nat.pos_of_ne_zero h) (by norm_num)),
          hexDigitVal_hexDigitChar (n % 16) (Nat.mod_lt n (by norm_num))]
        omega

theorem decValue_decChars (n : Nat) : decValue (decChars n) = n := by
  induction n using Nat.strong_induction_on with
  | _ n ih =>
      by_cases h : n = 0
      · subst h
        rw [decChars]
        simp [decValue]
      · rw [decChars, dif_neg h, decValue_append_digit,
          ih (n / 10) (Nat.div_lt_self (Nat.pos_of_ne_zero h) (by norm_num)),
          decDigitChar_val (n % 10) (Nat.mod_lt n (by norm_num))]
        omega

theorem hexChars_upper (n : Nat) :
    (hexChars n).all isUpperHexDigit = true := by
  induction n using Nat.strong_induction_on with
  | _ n ih =>
      by_cases h : n = 0
      · subst h
        rw [hexChars]
        simp
      · rw [hexChars, dif_neg h, List.all_append]
        simp [ih (n / 16)
            (Nat.div_lt_self (Nat.pos_of_ne_zero h) (by norm_num)),
          isUpperHexDigit_hexDigitChar (n % 16) (Nat.mod_lt n (by norm_num))]

theorem decChars_digits (n : Nat) :
    (decChars n).all isDecDigit = true := by
  induction n using Nat.strong_induction_on with
  | _ n ih =>
      by_cases h : n = 0
      · subst h
        rw [decChars]
        simp
      · rw [decChars, dif_neg h, List.all_append]
        simp [ih (n / 10)
            (Nat.div_lt_self (Nat.pos_of_ne_zero h) (by norm_num)),
          isDecDigit_decDigitChar (n % 10) (Nat.mod_lt n (by norm_num))]

theorem hexUpper_spec (n : Nat) :
    hexValue (hexUpper n).toList = n ∧
    (hexUpper n).toList.all isUpperHexDigit = true ∧
    (hexUpper n).toList ≠ [] := by
  by_cases h : n = 0
  · subst h
    refine ⟨?_, ?_, ?_⟩ <;> decide
  · rw [hexUpper, if_neg h]
    refine ⟨hexValue_hexChars n, hexChars_upper n, ?_⟩
    show hexChars n ≠ []
    rw [hexChars, dif_neg h]
    simp

theorem decString_spec (n : Nat) :
    decValue (decString n).toList = n ∧
    (decString n).toList.all isDecDigit = true ∧
    (decString n).toList ≠ [] := by
  by_cases h : n = 0
  · subst h
    refine ⟨?_, ?_, ?_⟩ <;> decide
  · rw [decString, if_neg h]
    refine ⟨decValue_decChars n, decChars_digits n, ?_⟩
    show decChars n ≠ []
    rw [decChars, dif_neg h]
    simp

/-- C9: for every chosen physical device, the diagnostics reporter emits
exactly four lines matching the fixed text contract — vendor id and
device id rendered in uppercase hexadecimal after a `0x` prefix, the
device name verbatim, and the driver version as an unsigned decimal
integer (the numeric fields decode back to the device's property
values) — and it mutates no context state, so repeated calls emit the
same lines. -/
theorem log_info_contract (s : VulkanStateModel) :
    (log_info_model s).1 = s ∧
    (log_info_model ((log_info_model s).1)).2 = (log_info_model s).2 ∧
    (log_info_model s).2.length = 4 ∧
    ∃ hv hd dv : String,
      (log_info_model s).2 =
        ["    Vendor ID:      0x" ++ hv,
         "    Device ID:      0x" ++ hd,
         "    Device Name:    " ++ s.vk_physical_device.props.deviceName,
         "    Driver Version: " ++ dv] ∧
      hexValue hv.toList = s.vk_physical_device.props.vendorID ∧
      hv.toList.all isUpperHexDigit = true ∧ hv.toList ≠ [] ∧
      hexValue hd.toList = s.vk_physical_device.props.deviceID ∧
      hd.toList.all isUpperHexDigit = true ∧ hd.toList ≠ [] ∧
      decValue dv.toList = s.vk_physical_device.props.driverVersion ∧
      dv.toList.all isDecDigit = true ∧ dv.toList ≠ [] := by
  obtain ⟨hv1, hv2, hv3⟩ := hexUpper_spec s.vk_physical_device.props.vendorID
  obtain ⟨hd1, hd2, hd3⟩ := hexUpper_spec s.vk_physical_device.props.deviceID
  obtain ⟨dv1, dv2, dv3⟩ := decString_spec s.vk_physical_device.props.driverVersion
  exact ⟨rfl, rfl, rfl,
    hexUpper s.vk_physical_device.props.vendorID,
    hexUpper s.vk_physical_device.props.deviceID,
    decString s.vk_physical_device.props.driverVersion,
    rfl, hv1, hv2, hv3, hd1, hd2, hd3, dv1, dv2, dv3⟩

/-- The logging theorem applied to the sample context: the state is
untouched. -/
theorem log_info_contract_witness :
    (log_info_model sampleState).1 = sampleState :=
  (log_info_contract sampleState).1
